import Mathlib

/-!
Shallow embedding of `src/webhook/app.py`: a webhook receiver that
normalizes heterogeneous alert payloads, extracts canonical alert fields,
and forwards a formatted message with bounded retries.

Python dynamic values are modelled by the inductive `Json`; Python dicts
by association lists with first-match lookup (JSON decoding produces
duplicate-free key sets, so first-match agrees with dict semantics).
`json.loads` is an external library call and is modelled by a parameter
`loads : String → Option Json` (`none` models a raised exception).
The network (`requests.post`) is modelled by a parameter giving the result
of each attempt.
-/

/-- A decoded JSON / Python value as handled by the handler. -/
inductive Json where
  | null : Json
  | bool (b : Bool) : Json
  | num (n : Int) : Json
  | str (s : String) : Json
  | arr (elems : List Json) : Json
  | obj (fields : List (String × Json)) : Json
deriving Repr

/-- Python `d.get(key)` on a dict: first matching key, `none` if absent. -/
def dictGet : List (String × Json) → String → Option Json
  | [], _ => none
  | (k, v) :: rest, key => if k = key then some v else dictGet rest key

/-- Python `d.get(key, default)`. -/
def dictGetD (d : List (String × Json)) (key : String) (dflt : Json) : Json :=
  (dictGet d key).getD dflt

/-- Lookup of a key in a JSON value when it is an object, `none` otherwise. -/
def jsonLookup : Json → String → Option Json
  | Json.obj fields, k => dictGet fields k
  | _, _ => none

/-- Python truthiness of a value, as used by `or` chains and `if` tests. -/
def Json.truthy : Json → Bool
  | .null => false
  | .bool b => b
  | .num n => n != 0
  | .str s => s != ""
  | .arr xs => !xs.isEmpty
  | .obj fs => !fs.isEmpty

/-- Python `a or b` on values: `a` if truthy, else `b`. -/
def pyOr (a b : Json) : Json :=
  if a.truthy then a else b

mutual

/-- Python `repr` of a value, used when values are interpolated inside
containers. Only its totality matters to the claims, never its exact text. -/
def pyRepr : Json → String
  | .null => "None"
  | .bool true => "True"
  | .bool false => "False"
  | .num n => toString n
  | .str s => "'" ++ s ++ "'"
  | .arr xs => "[" ++ pyReprList xs ++ "]"
  | .obj fs => "\x7b" ++ pyReprFields fs ++ "\x7d"

/-- Comma-joined reprs of the elements of a list. -/
def pyReprList : List Json → String
  | [] => ""
  | [x] => pyRepr x
  | x :: y :: rest => pyRepr x ++ ", " ++ pyReprList (y :: rest)

/-- Comma-joined reprs of the entries of a dict. -/
def pyReprFields : List (String × Json) → String
  | [] => ""
  | [(k, v)] => "'" ++ k ++ "': " ++ pyRepr v
  | (k, v) :: e :: rest => "'" ++ k ++ "': " ++ pyRepr v ++ ", " ++ pyReprFields (e :: rest)

end

/-- Python `str()` as used by the f-string: strings interpolate verbatim,
other values via their repr. -/
def pyStr : Json → String
  | .str s => s
  | v => pyRepr v

/-- Lines 26-30: `json.loads(s)`, `None` on any exception. The decoder
itself is the external `json` library, passed in as `loads`. -/
def try_parse_json_string (loads : String → Option Json) (s : String) : Option Json :=
  loads s

/-- The canonical alert record extracted at lines 113-120. In Python the
four fields are arbitrary values (labels may map keys to non-strings),
so they are `Json` here; the defaults are the string literals of the code. -/
structure CanonicalAlert where
  status : Json
  name : Json
  instance_ : Json
  summary : Json
deriving Repr

/-- Lines 114-115: `a.get(key, {}) if isinstance(a.get(key, {}), dict)
else {}` — the sub-mapping under `key` when present and a dict, else `{}`. -/
def subDict (a : List (String × Json)) (key : String) : List (String × Json) :=
  match dictGet a key with
  | some (Json.obj l) => l
  | _ => []

/-- Lines 114-119: tolerant field extraction from a candidate dict `a`.
`labels` / `annotations` are used only when present and dicts, else `{}`;
`summary` follows the Python `or` chain over possibly-missing keys
(a missing key gives `None`, i.e. `Json.null`). -/
def extractFields (a : List (String × Json)) : CanonicalAlert :=
  let labels := subDict a "labels"
  let ann := subDict a "annotations"
  { status := dictGetD a "status" (Json.str "?")
    name := dictGetD labels "alertname" (Json.str "<no-name>")
    instance_ := dictGetD labels "instance" (dictGetD labels "host" (Json.str "<unknown>"))
    summary := pyOr (dictGetD ann "summary" Json.null)
      (pyOr (dictGetD ann "description" Json.null) (Json.str "")) }

/-- Lines 100-107: the string-unwrapping pass over one candidate: a string
candidate is re-decoded and kept only if it decodes to a dict; any other
candidate passes through unchanged. `none` means the element is skipped. -/
def decodeCandidate (loads : String → Option Json) (a : Json) : Option Json :=
  match a with
  | Json.str s =>
    match try_parse_json_string loads s with
    | some (Json.obj p) => some (Json.obj p)
    | _ => none
  | _ => some a

/-- Lines 100-120 combined: per-candidate extraction. `none` models the
`skipped` classification (unparseable string or non-dict candidate); the
field-access block of lines 113-120 is total, so the `except` arm of
lines 131-134 is unreachable and extraction always succeeds on a dict. -/
def extract (loads : String → Option Json) (a : Json) : Option CanonicalAlert :=
  match decodeCandidate loads a with
  | some (Json.obj fields) => some (extractFields fields)
  | _ => none

/-- Line 120: the human-readable message built from the extracted fields. -/
def formatAlert (c : CanonicalAlert) : String :=
  "[" ++ pyStr c.status ++ "] " ++ pyStr c.name ++ " on " ++ pyStr c.instance_
    ++ " — " ++ pyStr c.summary

/-! ### Delivery forwarder (`send_telegram`, lines 32-61) -/

/-- One network attempt as seen by the retry loop: either
`requests.exceptions.RequestException` (connection error / timeout), or an
HTTP response with status code, body text, and the result of `r.json()`
(`none` when decoding the body raises). -/
inductive HttpAttempt where
  | netError : HttpAttempt
  | response (status : Nat) (text : String) (decoded : Option Json) : HttpAttempt

/-- The diagnostic payload of a delivery outcome: either a plain string
(`"no-creds"`, response text, `"max_retries_exceeded"`) or the decoded
provider response. -/
inductive SendResp where
  | str (s : String) : SendResp
  | json (j : Json) : SendResp
deriving Repr

/-- Observable I/O trace of one `send_telegram` call: how many network
POSTs were made and the argument of each `time.sleep`, in order. -/
structure SendTrace where
  attempts : Nat
  sleeps : List Nat
deriving Repr, DecidableEq

/-- Python truthiness of an optional environment string: unset (`none`) and
the empty string are both falsy (`if not TELEGRAM_BOT_TOKEN or ...`). -/
def truthyOptStr : Option String → Bool
  | none => false
  | some s => s != ""

/-- Lines 41-61: the `for attempt in range(1, max_retries + 1)` loop.
`net k` is the result of the POST on attempt `k`; the fuel argument is the
number of attempts still allowed. A network error sleeps `1 * attempt`
seconds and retries; a 200 returns the decoded body's `ok` field (default
`False`) when the body decodes to a dict, else `(False, text)` (the
`except` around `r.json()`/`j.get` catches both decode failure and a
non-dict body); a 5xx sleeps `2 ^ attempt` seconds and retries; any other
status returns `(False, text)`. Falling off the loop returns
`(False, "max_retries_exceeded")`. -/
def sendAttempts (net : Nat → HttpAttempt) : Nat → Nat → SendTrace → (Json × SendResp) × SendTrace
  | _, 0, tr => ((Json.bool false, SendResp.str "max_retries_exceeded"), tr)
  | attempt, fuel + 1, tr =>
    match net attempt with
    | HttpAttempt.netError =>
      sendAttempts net (attempt + 1) fuel ⟨tr.attempts + 1, tr.sleeps ++ [1 * attempt]⟩
    | HttpAttempt.response status text decoded =>
      if status = 200 then
        match decoded with
        | some (Json.obj fields) =>
          ((dictGetD fields "ok" (Json.bool false), SendResp.json (Json.obj fields)),
            ⟨tr.attempts + 1, tr.sleeps⟩)
        | _ => ((Json.bool false, SendResp.str text), ⟨tr.attempts + 1, tr.sleeps⟩)
      else if 500 ≤ status ∧ status < 600 then
        sendAttempts net (attempt + 1) fuel ⟨tr.attempts + 1, tr.sleeps ++ [2 ^ attempt]⟩
      else
        ((Json.bool false, SendResp.str text), ⟨tr.attempts + 1, tr.sleeps⟩)

/-- Lines 32-61: `send_telegram(text, max_retries=3)`. Credentials come
from the environment; when either is unset/empty the function returns
`(False, "no-creds")` before any network I/O. The message text only
influences the network's behaviour, which is abstracted into `net`. -/
def send_telegram (botToken chatId : Option String) (_text : String)
    (net : Nat → HttpAttempt) (max_retries : Nat := 3) : (Json × SendResp) × SendTrace :=
  if !truthyOptStr botToken || !truthyOptStr chatId then
    ((Json.bool false, SendResp.str "no-creds"), ⟨0, []⟩)
  else
    sendAttempts net 1 max_retries ⟨0, []⟩

/-! ### Request handler (`alert`, lines 63-136) -/

/-- Character-level prefix check: does `s` start with pattern `p`? -/
def charsStartWith : List Char → List Char → Bool
  | [], _ => true
  | _ :: _, [] => false
  | p :: ps, c :: cs => p = c && charsStartWith ps cs

/-- Model of Python `s.startswith(p)`. -/
def startsWithChars (s p : String) : Bool :=
  charsStartWith p.data s.data

/-- Split a character list at its first space: `some (before, after)`,
or `none` when no space occurs. -/
def splitFirstSpace : List Char → Option (List Char × List Char)
  | [] => none
  | c :: rest =>
    if c = ' ' then some ([], rest)
    else
      match splitFirstSpace rest with
      | none => none
      | some (pre, post) => some (c :: pre, post)

/-- Python `s.split(" ", 1)[1]`. The handler only evaluates this after
`startswith("Bearer ")` succeeded, so a space always exists; the `""`
arm for a space-free string is unreachable on that path. -/
def splitSpace1Snd (s : String) : String :=
  match splitFirstSpace s.data with
  | none => ""
  | some (_, post) => String.mk post

/-- Lines 72-76: the request is rejected with 401 exactly when a token is
configured (truthy) and the header fails
`auth.startswith("Bearer ") and auth.split(" ", 1)[1] == EXPECTED_TOKEN`. -/
def authRejected (expected_token : Option String) (auth : String) : Bool :=
  truthyOptStr expected_token &&
    (!startsWithChars auth "Bearer " || splitSpace1Snd auth != expected_token.getD "")

/-- Lines 86-93: resolve the parsed body into the candidate list.
`alerts_obj = none` models a body that failed both JSON parses
(lines 79-84). First match wins: dict with an `alerts` list → that list;
bare list → itself; any other dict → wrapped singleton; everything else
(strings, numbers, booleans, null, unparsable) → `none`, answered 400. -/
def resolveAlertsList (alerts_obj : Option Json) : Option (List Json) :=
  match alerts_obj with
  | some (Json.obj fields) =>
    match dictGet fields "alerts" with
    | some (Json.arr l) => some l
    | _ => some [Json.obj fields]
  | some (Json.arr l) => some l
  | _ => none

/-- Mutable state of the loop at lines 95-134, plus the trace of messages
handed to `send_telegram`. -/
structure LoopState where
  processed : Nat
  skipped : Nat
  errors : List String
  sent : List String
deriving Repr, DecidableEq

/-- Lines 99-134, one iteration: a candidate that fails the string-unwrap
or dict check is `skipped`; otherwise its fields are extracted, the
message is sent, and the element is `processed` whatever `send` returned
(the outcome feeds only logging). The `except` arm (lines 131-134) is
unreachable because field extraction is total, so `errors` never grows. -/
def stepCandidate (loads : String → Option Json) (send : String → Json × SendResp)
    (st : LoopState) (a : Json) : LoopState :=
  match extract loads a with
  | none => { st with skipped := st.skipped + 1 }
  | some c =>
    let human := formatAlert c
    let _ok_resp := send human
    { st with processed := st.processed + 1, sent := st.sent ++ [human] }

/-- The whole candidate loop, started from zeroed counters. -/
def runLoop (loads : String → Option Json) (send : String → Json × SendResp)
    (alerts_list : List Json) : LoopState :=
  alerts_list.foldl (stepCandidate loads send) ⟨0, 0, [], []⟩

/-- Line 136: the 200 response body. -/
def okBody (received processed skipped : Nat) (errors : List String) : Json :=
  Json.obj [("received_raw_count", Json.num (Int.ofNat received)),
    ("processed", Json.num (Int.ofNat processed)),
    ("skipped", Json.num (Int.ofNat skipped)),
    ("errors", Json.arr (errors.map Json.str))]

/-- Lines 63-136: the `POST /alert` handler. Returns the HTTP status and
JSON body, paired with the list of message texts passed to the forwarder.
`expected_token` is `EXPECTED_TOKEN`, `auth` the `Authorization` header
(`""` when absent), `alerts_obj` the JSON-parsed body (`none` if both
parses failed), `loads` the second-pass string decoder, `send` the
delivery forwarder's outcome per message. -/
def alert (expected_token : Option String) (auth : String) (alerts_obj : Option Json)
    (loads : String → Option Json) (send : String → Json × SendResp) :
    (Nat × Json) × List String :=
  if authRejected expected_token auth then
    ((401, Json.obj [("error", Json.str "unauthorized")]), [])
  else
    match resolveAlertsList alerts_obj with
    | none => ((400, Json.obj [("error", Json.str "invalid_json")]), [])
    | some alerts_list =>
      let st := runLoop loads send alerts_list
      ((200, okBody alerts_list.length st.processed st.skipped st.errors), st.sent)

/-- Whether an optional value is present and a JSON object
(`isinstance(a.get(k), dict)` with a present key). -/
def isObjVal : Option Json → Bool
  | some (Json.obj _) => true
  | _ => false

/-- Whether a value is a JSON array (`isinstance(v, list)`). -/
def isArr : Json → Bool
  | Json.arr _ => true
  | _ => false

/-- A second-pass decoder that always fails, for concrete instantiations. -/
def loadsNone : String → Option Json := fun _ => none

/-- A delivery stub that always reports success, for concrete instantiations. -/
def sendOk : String → Json × SendResp := fun _ => (Json.bool true, SendResp.str "")

/-! ### Theorems -/

/-- Helper: the loop adds exactly one to `processed + skipped` per element,
from any starting state. -/
theorem foldl_step_counters (loads : String → Option Json) (send : String → Json × SendResp) :
    ∀ (l : List Json) (st : LoopState),
      (l.foldl (stepCandidate loads send) st).processed
          + (l.foldl (stepCandidate loads send) st).skipped
        = st.processed + st.skipped + l.length
  | [], _ => by simp
  | a :: rest, st => by
    have ih := foldl_step_counters loads send rest (stepCandidate loads send st a)
    simp only [List.foldl_cons, List.length_cons]
    rw [ih]
    cases h : extract loads a <;> simp [stepCandidate, h] <;> omega

/-- C1: for every request whose body normalizes to a candidate list, the
200 response reports `received_raw_count = ` the list's length and the
loop counters, and `processed + skipped` equals that length: each
candidate increments exactly one of the two counters. -/
theorem alert_batch_counters (tok : Option String) (auth : String) (obj : Option Json)
    (loads : String → Option Json) (send : String → Json × SendResp) (l : List Json)
    (hauth : authRejected tok auth = false) (hnorm : resolveAlertsList obj = some l) :
    alert tok auth obj loads send =
      ((200, okBody l.length (runLoop loads send l).processed (runLoop loads send l).skipped
          (runLoop loads send l).errors),
        (runLoop loads send l).sent)
    ∧ (runLoop loads send l).processed + (runLoop loads send l).skipped = l.length := by
  constructor
  · simp [alert, hauth, hnorm]
  · simpa [runLoop] using foldl_step_counters loads send l ⟨0, 0, [], []⟩

/-- Witness for C1 at the concrete body `[1]`: the lone non-dict candidate
is skipped and `0 + 1 = 1 = received_raw_count`. -/
theorem alert_batch_counters_witness :
    alert none "" (some (Json.arr [Json.num 1])) loadsNone sendOk =
      ((200, okBody 1 0 1 []), [])
    ∧ 0 + 1 = 1 :=
  alert_batch_counters none "" (some (Json.arr [Json.num 1])) loadsNone sendOk
    [Json.num 1] rfl rfl

/-- C2 counterexample: a top-level body that is the JSON string `"[]"`,
with a decoder that does decode it to a sequence, is nevertheless answered
`400 invalid_json` with nothing processed — the handler has no top-level
string branch, contradicting the claimed string-decoding step. -/
theorem alert_string_body_cex :
    alert none "" (some (Json.str "[]")) (fun _ => some (Json.arr [])) sendOk =
      ((400, Json.obj [("error", Json.str "invalid_json")]), []) := rfl

/-- C2 amended: a request whose top-level body is a JSON string is never
decoded further at the top level; it falls into the unrecognized-shape
branch and is answered `400 invalid_json` with no candidate processed.
(Second-pass string decoding happens only per candidate inside a list.) -/
theorem alert_string_body_always_400 (tok : Option String) (auth : String) (s : String)
    (loads : String → Option Json) (send : String → Json × SendResp)
    (hauth : authRejected tok auth = false) :
    alert tok auth (some (Json.str s)) loads send =
      ((400, Json.obj [("error", Json.str "invalid_json")]), []) := by
  simp [alert, hauth, resolveAlertsList]

/-- Witness for the amended C2 at the concrete string body `"x"`. -/
theorem alert_string_body_always_400_witness :
    alert none "" (some (Json.str "x")) loadsNone sendOk =
      ((400, Json.obj [("error", Json.str "invalid_json")]), []) :=
  alert_string_body_always_400 none "" "x" loadsNone sendOk rfl

/-- C3: a candidate that is a JSON-encoded string of an object `m`
(i.e. the decoder yields `m` on it) extracts to exactly the same
canonical alert as the object `m` sent directly. -/
theorem extract_double_encoding (loads : String → Option Json) (s : String)
    (m : List (String × Json)) (hdec : loads s = some (Json.obj m)) :
    extract loads (Json.str s) = extract loads (Json.obj m) := by
  simp [extract, decodeCandidate, try_parse_json_string, hdec]

/-- Witness for C3: a decoder sending every string to `{}` makes the
string candidate extract exactly like the empty object. -/
theorem extract_double_encoding_witness :
    extract (fun _ => some (Json.obj [])) (Json.str "\x7b\x7d") =
      extract (fun _ => some (Json.obj [])) (Json.obj []) :=
  extract_double_encoding (fun _ => some (Json.obj [])) "\x7b\x7d" [] rfl

/-- Helper: a `labels`/`annotations` sub-field that is missing or not a
dict resolves to the empty dict. -/
theorem subDict_eq_nil (a : List (String × Json)) (key : String)
    (h : isObjVal (dictGet a key) = false) : subDict a key = [] := by
  unfold subDict
  cases hk : dictGet a key with
  | none => rfl
  | some v => cases v <;> simp_all [isObjVal]

/-- C4: a candidate dict whose `labels` and `annotations` sub-fields are
each missing or not a mapping, and which has no `status` key, still
extracts successfully — with the default values
`status "?"`, `name "<no-name>"`, `instance "<unknown>"`, `summary ""`. -/
theorem extract_missing_subfields (loads : String → Option Json) (a : List (String × Json))
    (hlab : isObjVal (dictGet a "labels") = false)
    (hann : isObjVal (dictGet a "annotations") = false)
    (hst : dictGet a "status" = none) :
    extract loads (Json.obj a) =
      some ⟨Json.str "?", Json.str "<no-name>", Json.str "<unknown>", Json.str ""⟩ := by
  have h1 := subDict_eq_nil a "labels" hlab
  have h2 := subDict_eq_nil a "annotations" hann
  simp [extract, decodeCandidate, extractFields, h1, h2, dictGetD, hst, dictGet,
    pyOr, Json.truthy]

/-- Witness for C4: a candidate whose `labels` is a string and whose
`annotations`/`status` are absent extracts to the all-defaults record. -/
theorem extract_missing_subfields_witness :
    extract loadsNone (Json.obj [("labels", Json.str "oops")]) =
      some ⟨Json.str "?", Json.str "<no-name>", Json.str "<unknown>", Json.str ""⟩ :=
  extract_missing_subfields loadsNone [("labels", Json.str "oops")] rfl rfl rfl

/-- C5: a candidate that extracts successfully always increments
`processed` (and appends its message to the sent trace), for every
delivery function `send` — the delivery outcome is discarded, so a
delivery failure can neither reclassify the element as skipped nor
change any counter. -/
theorem processed_regardless_of_delivery (loads : String → Option Json)
    (send : String → Json × SendResp) (st : LoopState) (a : Json) (c : CanonicalAlert)
    (hex : extract loads a = some c) :
    stepCandidate loads send st a =
      { st with processed := st.processed + 1, sent := st.sent ++ [formatAlert c] } := by
  simp [stepCandidate, hex]

/-- Witness for C5: the empty-object candidate is processed even when the
delivery function reports a hard failure. -/
theorem processed_regardless_of_delivery_witness :
    stepCandidate loadsNone (fun _ => (Json.bool false, SendResp.str "max_retries_exceeded"))
      ⟨0, 0, [], []⟩ (Json.obj []) =
      ⟨1, 0, [], ["[?] <no-name> on <unknown> — "]⟩ :=
  processed_regardless_of_delivery loadsNone
    (fun _ => (Json.bool false, SendResp.str "max_retries_exceeded"))
    ⟨0, 0, [], []⟩ (Json.obj [])
    ⟨Json.str "?", Json.str "<no-name>", Json.str "<unknown>", Json.str ""⟩ rfl

/-- C6: when either channel credential is unset or empty, `send_telegram`
returns `(False, "no-creds")` immediately, with zero network attempts and
no sleeps, for any retry budget. -/
theorem send_telegram_no_creds (botToken chatId : Option String) (text : String)
    (net : Nat → HttpAttempt) (n : Nat)
    (h : truthyOptStr botToken = false ∨ truthyOptStr chatId = false) :
    send_telegram botToken chatId text net n =
      ((Json.bool false, SendResp.str "no-creds"), ⟨0, []⟩) := by
  rcases h with h | h <;> simp [send_telegram, h]

/-- Witness for C6 with the bot token unset. -/
theorem send_telegram_no_creds_witness :
    send_telegram none (some "chat") "hello" (fun _ => HttpAttempt.netError) 3 =
      ((Json.bool false, SendResp.str "no-creds"), ⟨0, []⟩) :=
  send_telegram_no_creds none (some "chat") "hello" (fun _ => HttpAttempt.netError) 3
    (Or.inl rfl)

/-- C7: with credentials configured and every attempt failing at the
network level, `send_telegram` at its default retry budget makes exactly
3 attempts, sleeps `1 * attempt` seconds after each (the strictly
increasing backoffs 1, 2, 3), and ends with
`(False, "max_retries_exceeded")`. -/
theorem send_telegram_all_net_failures (botToken chatId : Option String) (text : String)
    (net : Nat → HttpAttempt)
    (hb : truthyOptStr botToken = true) (hc : truthyOptStr chatId = true)
    (hnet : ∀ k, net k = HttpAttempt.netError) :
    send_telegram botToken chatId text net =
      ((Json.bool false, SendResp.str "max_retries_exceeded"), ⟨3, [1, 2, 3]⟩) := by
  simp [send_telegram, hb, hc, sendAttempts, hnet]

/-- Witness for C7 with concrete credentials and a dead network. -/
theorem send_telegram_all_net_failures_witness :
    send_telegram (some "bot") (some "chat") "hello" (fun _ => HttpAttempt.netError) =
      ((Json.bool false, SendResp.str "max_retries_exceeded"), ⟨3, [1, 2, 3]⟩) :=
  send_telegram_all_net_failures (some "bot") (some "chat") "hello"
    (fun _ => HttpAttempt.netError) rfl rfl (fun _ => rfl)

/-- Helper: a successful character-level prefix check exhibits a suffix. -/
theorem charsStartWith_exists {p s : List Char} (h : charsStartWith p s = true) :
    ∃ t, s = p ++ t := by
  induction p generalizing s with
  | nil => exact ⟨s, rfl⟩
  | cons a as ih =>
    cases s with
    | nil => simp [charsStartWith] at h
    | cons b bs =>
      simp only [charsStartWith, Bool.and_eq_true, decide_eq_true_eq] at h
      obtain ⟨h1, h2⟩ := h
      obtain ⟨t, ht⟩ := ih h2
      exact ⟨t, by rw [h1, ht]; rfl⟩

/-- Helper: splitting right after the literal prefix `"Bearer "`. -/
theorem splitFirstSpace_bearer (t : List Char) :
    splitFirstSpace ('B' :: 'e' :: 'a' :: 'r' :: 'e' :: 'r' :: ' ' :: t) =
      some (['B', 'e', 'a', 'r', 'e', 'r'], t) := rfl

/-- Helper: a header that passes both halves of the check at line 74 is
exactly `"Bearer "` followed by the expected token. -/
theorem auth_pass_eq {tok auth : String}
    (hpre : startsWithChars auth "Bearer " = true)
    (hsnd : splitSpace1Snd auth = tok) : auth = "Bearer " ++ tok := by
  obtain ⟨d⟩ := auth
  obtain ⟨tl⟩ := tok
  obtain ⟨t, ht⟩ := charsStartWith_exists (p := "Bearer ".data) (s := d) hpre
  subst ht
  have hs : splitSpace1Snd (String.mk ("Bearer ".data ++ t)) = String.mk t := by
    simp only [splitSpace1Snd]
    rw [show ("Bearer ".data ++ t) = 'B' :: 'e' :: 'a' :: 'r' :: 'e' :: 'r' :: ' ' :: t from rfl,
      splitFirstSpace_bearer]
  rw [hs] at hsnd
  injection hsnd with h
  rw [h]
  rfl

/-- Helper: with a configured (nonempty) token, any header other than
`"Bearer " ++ token` is rejected by the check at lines 72-74. -/
theorem authRejected_of_ne (tok auth : String) (htok : tok ≠ "")
    (hne : auth ≠ "Bearer " ++ tok) : authRejected (some tok) auth = true := by
  unfold authRejected
  cases hpre : startsWithChars auth "Bearer " with
  | false => simp [truthyOptStr, bne_iff_ne, htok, hpre]
  | true =>
    have hsnd : splitSpace1Snd auth ≠ tok := fun h => hne (auth_pass_eq hpre h)
    simp [truthyOptStr, bne_iff_ne, htok, hpre, hsnd]

/-- C8: with a (nonempty) bearer token configured, a request whose
`Authorization` header is not exactly `"Bearer "` followed by that token
is answered `401 {"error":"unauthorized"}`, with no candidate processed
and no delivery attempted (empty sent trace). -/
theorem alert_unauthorized (tok auth : String) (obj : Option Json)
    (loads : String → Option Json) (send : String → Json × SendResp)
    (htok : tok ≠ "") (hne : auth ≠ "Bearer " ++ tok) :
    alert (some tok) auth obj loads send =
      ((401, Json.obj [("error", Json.str "unauthorized")]), []) := by
  simp [alert, authRejected_of_ne tok auth htok hne]

/-- Witness for C8: wrong token in the header, one candidate in the body,
yet a 401 with nothing sent. -/
theorem alert_unauthorized_witness :
    alert (some "secret") "Bearer wrong" (some (Json.arr [Json.obj []])) loadsNone sendOk =
      ((401, Json.obj [("error", Json.str "unauthorized")]), []) :=
  alert_unauthorized "secret" "Bearer wrong" (some (Json.arr [Json.obj []])) loadsNone sendOk
    (by decide) (by decide)

/-- C9 counterexample: for a boolean body (unrecognized shape) the 400
response body is exactly `{"error":"invalid_json"}` — it carries no
`raw_length` field, contradicting the claimed diagnostic. -/
theorem invalid_json_no_raw_length_cex :
    (alert none "" (some (Json.bool true)) loadsNone sendOk).1.1 = 400 ∧
    jsonLookup (alert none "" (some (Json.bool true)) loadsNone sendOk).1.2 "raw_length" =
      none := ⟨rfl, rfl⟩

/-- C9 amended: on an unrecognized top-level body shape the response is
`400` with body exactly `{"error":"invalid_json"}` and no `raw_length`
field; the raw body length is only written to the log (line 69), never
into the response. -/
theorem invalid_json_body_exact (tok : Option String) (auth : String) (obj : Option Json)
    (loads : String → Option Json) (send : String → Json × SendResp)
    (hauth : authRejected tok auth = false) (hnorm : resolveAlertsList obj = none) :
    alert tok auth obj loads send =
      ((400, Json.obj [("error", Json.str "invalid_json")]), []) ∧
    jsonLookup (alert tok auth obj loads send).1.2 "raw_length" = none := by
  have h : alert tok auth obj loads send =
      ((400, Json.obj [("error", Json.str "invalid_json")]), []) := by
    simp [alert, hauth, hnorm]
  exact ⟨h, by rw [h]; rfl⟩

/-- Witness for the amended C9 at the concrete body `null`. -/
theorem invalid_json_body_exact_witness :
    (alert none "" (some Json.null) loadsNone sendOk =
      ((400, Json.obj [("error", Json.str "invalid_json")]), [])) ∧
    jsonLookup (alert none "" (some Json.null) loadsNone sendOk).1.2 "raw_length" = none :=
  invalid_json_body_exact none "" (some Json.null) loadsNone sendOk rfl rfl

/-- C10: a top-level mapping whose `alerts` key holds a non-list value is
not rejected: the whole mapping becomes the single candidate, and the
request is answered 200 with `received_raw_count = 1`. -/
theorem alerts_key_not_list_wrapped (tok : Option String) (auth : String)
    (fields : List (String × Json)) (v : Json)
    (loads : String → Option Json) (send : String → Json × SendResp)
    (hauth : authRejected tok auth = false)
    (hkey : dictGet fields "alerts" = some v) (hv : isArr v = false) :
    alert tok auth (some (Json.obj fields)) loads send =
      ((200, okBody 1 (runLoop loads send [Json.obj fields]).processed
          (runLoop loads send [Json.obj fields]).skipped
          (runLoop loads send [Json.obj fields]).errors),
        (runLoop loads send [Json.obj fields]).sent) := by
  have hres : resolveAlertsList (some (Json.obj fields)) = some [Json.obj fields] := by
    cases v <;> simp_all [resolveAlertsList, isArr]
  simp [alert, hauth, hres]

/-- Witness for C10: `{"alerts": 5}` is wrapped, extracted with defaults,
and processed. -/
theorem alerts_key_not_list_wrapped_witness :
    alert none "" (some (Json.obj [("alerts", Json.num 5)])) loadsNone sendOk =
      ((200, okBody 1 1 0 []), ["[?] <no-name> on <unknown> — "]) :=
  alerts_key_not_list_wrapped none "" [("alerts", Json.num 5)] (Json.num 5) loadsNone sendOk
    rfl rfl rfl
